import Mathlib

/-!
Verification of the DBDuck query-translation and backend-dispatch layer.

This file gives a shallow embedding, in Lean, of the parts of the DBDuck
repository that the verified properties are about:

* the literal-coercion helpers of the UQL parser and of the document (NoSQL)
  and graph code generators;
* the graph adapter (`DBDuck/udom/adapters/graph_adapter.py`);
* the document adapter (`DBDuck/udom/adapters/nosql_adapter.py`);
* the relational adapter (`DBDuck/adapters/_sqlalchemy_adapter.py`,
  instantiated with the SQLite subclass specializations);
* the connection manager (`DBDuck/core/connection_manager.py`);
* the transaction manager (`DBDuck/core/transaction.py`);
* the facade transaction guards (`DBDuck/udom/udom.py`).

Python strings are modelled as Lean `String` (operating on `String.data`,
a `List Char`); Python dicts that the code builds in insertion order are
modelled as association lists; raised exceptions are modelled with
`Except PyError` (or an `Option PyError` component where the Python code
mutates state in a `finally` block before re-raising).  Where the Python
code relies on a regular expression, the embedding implements that specific
pattern directly; comments at each definition record the pattern and argue
that greedy maximal-munch matching is faithful for it.
-/

/-- Python `\s` for ASCII text: space, tab, newline, carriage return,
form feed (12) and vertical tab (11). -/
def isPySpace (c : Char) : Bool :=
  c.toNat = 32 || c.toNat = 9 || c.toNat = 10 || c.toNat = 13 ||
  c.toNat = 12 || c.toNat = 11

/-- The character class `[A-Za-z_]` (first character of the identifier
pattern `^[A-Za-z_][A-Za-z0-9_]*$`). -/
def isIdentStart (c : Char) : Bool :=
  (65 ≤ c.toNat && c.toNat ≤ 90) || (97 ≤ c.toNat && c.toNat ≤ 122) || c.toNat = 95

/-- The character class `[A-Za-z0-9_]`, which is also Python regex `\w`
for ASCII text. -/
def isIdentChar (c : Char) : Bool :=
  isIdentStart c || (48 ≤ c.toNat && c.toNat ≤ 57)

/-- ASCII decimal digit `[0-9]`. -/
def isDigitChar (c : Char) : Bool :=
  48 ≤ c.toNat && c.toNat ≤ 57

/-- Drop the given character from both ends of a character list, as one side
of Python `str.strip(ch)` (which removes every leading and trailing
occurrence, not just one layer). -/
def stripEndsBy (p : Char → Bool) (l : List Char) : List Char :=
  ((l.dropWhile p).reverse.dropWhile p).reverse

/-- Python `s.strip()`: remove leading and trailing whitespace. -/
def pyStripWs (s : String) : String :=
  ⟨stripEndsBy isPySpace s.data⟩

/-- Python `s.strip(ch)` for a single strip character: remove every leading
and trailing occurrence of `ch`. -/
def pyStripChar (s : String) (ch : Char) : String :=
  ⟨stripEndsBy (fun c => c = ch) s.data⟩

/-- Python `s.lower()` (ASCII case mapping suffices for the modelled code). -/
def pyLower (s : String) : String :=
  ⟨s.data.map Char.toLower⟩

/-- Python `s.upper()`. -/
def pyUpper (s : String) : String :=
  ⟨s.data.map Char.toUpper⟩

/-- Python `s.isdigit()` restricted to ASCII: non-empty and all characters
are decimal digits. -/
def pyIsdigit (s : String) : Bool :=
  !s.data.isEmpty && s.data.all isDigitChar

/-- Python `s.replace(ch, "", 1)`: remove the first occurrence of `ch`. -/
def removeFirstChar (ch : Char) : List Char → List Char
  | [] => []
  | c :: cs => if c = ch then cs else c :: removeFirstChar ch cs

/-- `pre` is a prefix of `l` (used for Python `str.startswith`). -/
def listStartsWith : List Char → List Char → Bool
  | _, [] => true
  | [], _ :: _ => false
  | c :: cs, p :: ps => c = p && listStartsWith cs ps

/-- Python `s.startswith(pre)`. -/
def pyStartsWith (s pre : String) : Bool :=
  listStartsWith s.data pre.data

/-- Whether the character occurs in the string (Python `ch in s`). -/
def containsChar (s : String) (ch : Char) : Bool :=
  s.data.any (fun c => c = ch)

/-- Python `s.split(ch, 1)` when `ch` occurs: the parts before and after the
first occurrence. -/
def splitOnceChar (s : String) (ch : Char) : String × String :=
  let before := s.data.takeWhile (fun c => c ≠ ch)
  let after := (s.data.dropWhile (fun c => c ≠ ch)).drop 1
  (⟨before⟩, ⟨after⟩)

/-- Python `s.split(ch)` (split on every occurrence; no separators left in
the parts; `"".split(ch) == [""]`). -/
def splitAllChar (ch : Char) : List Char → List (List Char)
  | [] => [[]]
  | c :: cs =>
    if c = ch then [] :: splitAllChar ch cs
    else
      match splitAllChar ch cs with
      | [] => [[c]]
      | p :: ps => (c :: p) :: ps

/-- Python `int(s)` on an all-digit string. -/
def natOfDigits (l : List Char) : Nat :=
  l.foldl (fun acc c => acc * 10 + (c.toNat - 48)) 0

/-- Join string parts with a separator (Python `sep.join(parts)`). -/
def joinSep (sep : String) : List String → String
  | [] => ""
  | [p] => p
  | p :: ps => p ++ sep ++ joinSep sep ps

/-- The double-quote character (written as `chr(34)` in the graph adapter). -/
def dquote : Char := Char.ofNat 34

/-- The single-quote character (written as `chr(39)` in the graph adapter). -/
def squote : Char := Char.ofNat 39

/-- Lookup in an insertion-ordered association list (Python dict read). -/
def assocLookup {α : Type} (l : List (String × α)) (k : String) : Option α :=
  match l with
  | [] => Option.none
  | (k2, v) :: rest => if k2 = k then Option.some v else assocLookup rest k

/-- Python dict write `d[k] = v`: update in place when the key exists
(keeping its position), otherwise append. -/
def assocUpsert {α : Type} (l : List (String × α)) (k : String) (v : α) :
    List (String × α) :=
  match l with
  | [] => [(k, v)]
  | (k2, v2) :: rest =>
    if k2 = k then (k2, v) :: rest else (k2, v2) :: assocUpsert rest k v

/-- Values of the Python runtime that the modelled code produces from UQL
literals.  A float is represented by its source literal: the modelled code
never computes with floats, it only classifies literals and forwards them. -/
inductive PyVal where
  | bool (b : Bool)
  | int (n : Int)
  | float (lit : String)
  | str (s : String)
deriving DecidableEq, Repr

/-- The DBDuck exception taxonomy (`DBDuck/core/exceptions.py`), plus the
built-in Python exceptions that the modelled code can raise. -/
inductive PyError where
  | queryError (msg : String)
  | transactionError (msg : String)
  | connectionError (msg : String)
  | valueError (msg : String)
  | attributeError (msg : String)
deriving DecidableEq, Repr

namespace UQLParser

/-- `UQLParser._cast_value` (`DBDuck/udom/uql/uql_parser.py`, lines 83-87):
`true`/`false` (case-insensitive) become booleans, all-digit literals become
integers, anything else is stripped of surrounding double then single
quotes.  Note: this function has no float case. -/
def cast_value (val : String) : PyVal :=
  if pyLower val = "true" then PyVal.bool true
  else if pyLower val = "false" then PyVal.bool false
  else if pyIsdigit val then PyVal.int (Int.ofNat (natOfDigits val.data))
  else PyVal.str (pyStripChar (pyStripChar val dquote) squote)

end UQLParser

namespace NoSQLAdapter

/-- `NoSQLAdapter._cast_value` (`DBDuck/udom/adapters/nosql_adapter.py`,
lines 177-186): like the parser version but with an additional float case
for literals whose characters are all digits after removing one dot. -/
def cast_value (val : String) : PyVal :=
  if pyLower val = "true" then PyVal.bool true
  else if pyLower val = "false" then PyVal.bool false
  else if pyIsdigit val then PyVal.int (Int.ofNat (natOfDigits val.data))
  else if pyIsdigit ⟨removeFirstChar (Char.ofNat 46) val.data⟩ then PyVal.float val
  else PyVal.str (pyStripChar (pyStripChar val dquote) squote)

end NoSQLAdapter

namespace GraphAdapter

/-- The per-value coercion inside `GraphAdapter._convert_create_properties`
(`DBDuck/udom/adapters/graph_adapter.py`, lines 133-139): `true`/`false`
are lowered, all-digit literals pass through, anything else is stripped of
surrounding single then double quotes and re-wrapped in double quotes.
There is no float case: a `digits.digits` literal takes the string arm. -/
def cast_prop_value (val : String) : String :=
  if pyLower val = "true" || pyLower val = "false" then pyLower val
  else if pyIsdigit val then val
  else dquote.toString ++ pyStripChar (pyStripChar val squote) dquote ++ dquote.toString

end GraphAdapter

/-- Spec-side classifier: `true`/`false` literals (case-insensitive). -/
def isBoolLit (val : String) : Bool :=
  pyLower val = "true" || pyLower val = "false"

/-- Spec-side classifier: literals that take the document generator's float
arm — not a boolean, not all digits, but all digits after removing one dot. -/
def floatShaped (val : String) : Bool :=
  !isBoolLit val && !pyIsdigit val && pyIsdigit ⟨removeFirstChar (Char.ofNat 46) val.data⟩

/-- C4 (counterexample): the coercion is not uniform across the code
generators.  On the literal `1.5` the document generator produces a float
while the UQL parser produces the string `"1.5"` (its `_cast_value` has no
float case), so the two coercions differ. -/
theorem C4_counterexample :
    UQLParser.cast_value "1.5" ≠ NoSQLAdapter.cast_value "1.5"
    ∧ UQLParser.cast_value "1.5" = PyVal.str "1.5"
    ∧ NoSQLAdapter.cast_value "1.5" = PyVal.float "1.5"
    ∧ GraphAdapter.cast_prop_value "1.5" = "\"1.5\"" := by
  refine ⟨by decide, by decide, by decide, by decide⟩

/-- C4 (amended): boolean literals and all-digit integer literals are
coerced identically by the UQL parser, the document generator and the graph
generator; the parser and the document generator agree exactly on every
literal that is not float-shaped; float-shaped literals (all digits after
removing one dot) become floats only in the document generator, while the
parser (and the graph generator) treat them as strings. -/
theorem C4_literal_coercion (val : String) :
    (floatShaped val = false → UQLParser.cast_value val = NoSQLAdapter.cast_value val)
    ∧ (floatShaped val = true →
        NoSQLAdapter.cast_value val = PyVal.float val
        ∧ UQLParser.cast_value val = PyVal.str (pyStripChar (pyStripChar val dquote) squote))
    ∧ (pyLower val = "true" →
        GraphAdapter.cast_prop_value val = pyLower val
        ∧ NoSQLAdapter.cast_value val = PyVal.bool true
        ∧ UQLParser.cast_value val = PyVal.bool true)
    ∧ (pyLower val = "false" →
        GraphAdapter.cast_prop_value val = pyLower val
        ∧ NoSQLAdapter.cast_value val = PyVal.bool false
        ∧ UQLParser.cast_value val = PyVal.bool false)
    ∧ (isBoolLit val = false → pyIsdigit val = true →
        GraphAdapter.cast_prop_value val = val
        ∧ NoSQLAdapter.cast_value val = PyVal.int (Int.ofNat (natOfDigits val.data))
        ∧ UQLParser.cast_value val = PyVal.int (Int.ofNat (natOfDigits val.data))) := by
  refine ⟨?_, ?_, ?_, ?_, ?_⟩
  · intro h
    unfold floatShaped isBoolLit at h
    unfold UQLParser.cast_value NoSQLAdapter.cast_value
    by_cases h1 : pyLower val = "true"
    · simp [h1]
    · by_cases h2 : pyLower val = "false"
      · simp [h1, h2]
      · by_cases h3 : pyIsdigit val
        · simp [h1, h2, h3]
        · simp [h1, h2, h3] at h ⊢
          simp [h]
  · intro h
    unfold floatShaped isBoolLit at h
    simp only [Bool.and_eq_true, Bool.not_eq_true', Bool.or_eq_false_iff,
      decide_eq_false_iff_not] at h
    obtain ⟨⟨⟨h1, h2⟩, h3⟩, h4⟩ := h
    unfold UQLParser.cast_value NoSQLAdapter.cast_value
    simp [h1, h2, h3, h4]
  · intro h1
    have hb : isBoolLit val = true := by simp [isBoolLit, h1]
    unfold UQLParser.cast_value NoSQLAdapter.cast_value GraphAdapter.cast_prop_value
    simp [h1]
  · intro h2
    by_cases h1 : pyLower val = "true"
    · exact absurd (h1.symm.trans h2) (by decide)
    · unfold UQLParser.cast_value NoSQLAdapter.cast_value GraphAdapter.cast_prop_value
      simp [h1, h2]
  · intro hb h3
    unfold isBoolLit at hb
    simp only [Bool.or_eq_false_iff, decide_eq_false_iff_not] at hb
    obtain ⟨h1, h2⟩ := hb
    unfold UQLParser.cast_value NoSQLAdapter.cast_value GraphAdapter.cast_prop_value
    simp [h1, h2, h3]

/-- C4 witness: the amended theorem applied to the concrete literal `1.5`,
discharging its hypothesis. -/
theorem C4_literal_coercion_witness :
    NoSQLAdapter.cast_value "1.5" = PyVal.float "1.5"
    ∧ UQLParser.cast_value "1.5" = PyVal.str (pyStripChar (pyStripChar "1.5" dquote) squote) :=
  (C4_literal_coercion "1.5").2.1 (by decide)

/-- The left-brace character (in strings the source writes it inside
f-string escapes). -/
def lbrace : Char := Char.ofNat 123

/-- The right-brace character. -/
def rbrace : Char := Char.ofNat 125

/-- The backslash character. -/
def bslash : Char := Char.ofNat 92

/-- Consume the keyword `kw` case-insensitively from the front of a
character list (one literal alternative of a `re.IGNORECASE` pattern). -/
def matchCI : List Char → List Char → Option (List Char)
  | [], rest => Option.some rest
  | _ :: _, [] => Option.none
  | k :: ks, c :: cs => if c.toLower = k.toLower then matchCI ks cs else Option.none

/-- Try to match the separator pattern `\s+KW\s+` (case-insensitive) at the
head of the list, returning the remainder after the match.  Both `\s+` are
taken maximally; backtracking them cannot help because `KW` starts with a
letter, which no shorter whitespace run can expose. -/
def trySepAt (kw : List Char) (cs : List Char) : Option (List Char) :=
  if (cs.takeWhile isPySpace).isEmpty then Option.none
  else
    match matchCI kw (cs.dropWhile isPySpace) with
    | Option.none => Option.none
    | Option.some rest2 =>
      if (rest2.takeWhile isPySpace).isEmpty then Option.none
      else Option.some (rest2.dropWhile isPySpace)

/-- Worker for `re.split(r"\s+KW\s+", s, flags=re.IGNORECASE)`: scan left to
right, cutting at each leftmost separator match.  The `Nat` fuel bounds the
number of scanning steps; it is initialised to the input length, which every
step strictly consumes, so the fuel-exhausted fallback is unreachable. -/
def splitSepAux (kw : List Char) : Nat → List Char → List Char → List (List Char)
  | 0, acc, rest => [acc.reverse ++ rest]
  | _ + 1, acc, [] => [acc.reverse]
  | fuel + 1, acc, c :: cs =>
    match trySepAt kw (c :: cs) with
    | Option.some rest => acc.reverse :: splitSepAux kw fuel [] rest
    | Option.none => splitSepAux kw fuel (c :: acc) cs

/-- Python `re.split(r"\s+KW\s+", s, flags=re.IGNORECASE)`. -/
def pySplitSep (kw : String) (s : String) : List String :=
  (splitSepAux kw.data s.data.length [] s.data).map (fun l => ⟨l⟩)

/-- The shared adapter regex `(FIND|DELETE)\s+(\w+)\s*(?:WHERE\s+(.+))?`
applied with `re.match` (anchored at the start only): returns the `\w+`
entity and the optional condition text.  Greedy maximal-munch is faithful:
the alternatives `FIND`/`DELETE` differ in their first letter, `\w+` cannot
give back characters to `\s*` or to `WHERE`, and when the optional group
fails the pattern still matches because nothing follows it. -/
def matchFindDelete (q : String) : Option (String × Option String) :=
  let step (rest0 : List Char) : Option (String × Option String) :=
    if (rest0.takeWhile isPySpace).isEmpty then Option.none
    else
      let rest1 := rest0.dropWhile isPySpace
      let word := rest1.takeWhile isIdentChar
      if word.isEmpty then Option.none
      else
        let rest3 := (rest1.dropWhile isIdentChar).dropWhile isPySpace
        let cond : Option (List Char) :=
          match matchCI "WHERE".data rest3 with
          | Option.none => Option.none
          | Option.some rest4 =>
            if (rest4.takeWhile isPySpace).isEmpty then Option.none
            else
              let rest5 := rest4.dropWhile isPySpace
              if rest5.isEmpty then Option.none else Option.some rest5
        Option.some (⟨word⟩, cond.map (fun l => ⟨l⟩))
  match matchCI "FIND".data q.data with
  | Option.some rest0 => step rest0
  | Option.none =>
    match matchCI "DELETE".data q.data with
    | Option.some rest0 => step rest0
    | Option.none => Option.none

/-- Index of the last occurrence of a character. -/
def lastIdxOf (ch : Char) (l : List Char) : Option Nat :=
  match l.reverse.findIdx? (fun c => c = ch) with
  | Option.none => Option.none
  | Option.some i => Option.some (l.length - 1 - i)

/-- The regex `CREATE\s+(\w+)\s*\{(.+)\}` applied with `re.match` (no end
anchor): returns the `\w+` entity and the brace body.  The greedy `(.+)`
followed by `\}` matches up to the last right brace that has at least one
character after the opening brace; trailing text after that brace is
ignored because the pattern is not end-anchored. -/
def matchCreateBody (q : String) : Option (String × String) :=
  match matchCI "CREATE".data q.data with
  | Option.none => Option.none
  | Option.some rest0 =>
    if (rest0.takeWhile isPySpace).isEmpty then Option.none
    else
      let rest1 := rest0.dropWhile isPySpace
      let word := rest1.takeWhile isIdentChar
      if word.isEmpty then Option.none
      else
        let rest2 := (rest1.dropWhile isIdentChar).dropWhile isPySpace
        match rest2 with
        | [] => Option.none
        | c :: tail =>
          if c = lbrace then
            match lastIdxOf rbrace tail with
            | Option.none => Option.none
            | Option.some i =>
              if i = 0 then Option.none else Option.some (⟨word⟩, ⟨tail.take i⟩)
          else Option.none

/-- Decidable equality for `Except`, so concrete runs of the modelled
fallible operations can be checked by `decide`. -/
instance exceptDecEq {ε α : Type} [DecidableEq ε] [DecidableEq α] :
    DecidableEq (Except ε α) := fun x y =>
  match x, y with
  | Except.ok a, Except.ok b =>
    if h : a = b then Decidable.isTrue (by rw [h])
    else Decidable.isFalse (fun hh => h (Except.ok.inj hh))
  | Except.error a, Except.error b =>
    if h : a = b then Decidable.isTrue (by rw [h])
    else Decidable.isFalse (fun hh => h (Except.error.inj hh))
  | Except.ok _, Except.error _ => Decidable.isFalse (fun hh => Except.noConfusion hh)
  | Except.error _, Except.ok _ => Decidable.isFalse (fun hh => Except.noConfusion hh)

/-- The polymorphic `where` argument of the adapter contract: absent, a
free-form condition string, or a mapping of equality constraints. -/
inductive PyWhere where
  | none
  | str (s : String)
  | map (m : List (String × PyVal))
deriving DecidableEq, Repr

/-- Python `str.replace` of a single quote by backslash-quote, as used by
`_to_uql_value`. -/
def escapeSQuotes : List Char → List Char
  | [] => []
  | c :: cs =>
    if c = squote then bslash :: squote :: escapeSQuotes cs
    else c :: escapeSQuotes cs

namespace GraphAdapter

/-- `GraphAdapter._to_uql_value`: booleans print lowercase, numbers print
via `str`, strings are single-quoted with inner single quotes escaped.
(`str` of a float is its literal in this model.) -/
def to_uql_value : PyVal → String
  | PyVal.bool b => if b then "true" else "false"
  | PyVal.int n => toString n
  | PyVal.float lit => lit
  | PyVal.str s => squote.toString ++ (⟨escapeSQuotes s.data⟩ : String) ++ squote.toString

/-- `GraphAdapter._normalize_where`: absent gives the empty clause, strings
are stripped, mappings become `k = v` fragments joined by `AND`. -/
def normalize_where : PyWhere → String
  | PyWhere.none => ""
  | PyWhere.str s => pyStripWs s
  | PyWhere.map m => joinSep " AND " (m.map (fun kv => kv.1 ++ " = " ++ to_uql_value kv.2))

/-- One iteration of the loop in `GraphAdapter._convert_conditions` (lines
105-124): the first-seen operator among `>`, `<`, `=`, `HAS` decides the
fragment shape; a part matching none of them contributes nothing. -/
def cypher_of_part (part : String) : Option String :=
  if containsChar part '>' then
    let (key, val) := splitOnceChar part '>'
    Option.some ("n." ++ pyStripWs key ++ " > " ++ pyStripWs val)
  else if containsChar part '<' then
    let (key, val) := splitOnceChar part '<'
    Option.some ("n." ++ pyStripWs key ++ " < " ++ pyStripWs val)
  else if containsChar part '=' then
    let (key, val0) := splitOnceChar part '='
    let val := pyStripWs val0
    if pyLower val = "true" || pyLower val = "false" then
      Option.some ("n." ++ pyStripWs key ++ " = " ++ pyLower val)
    else if pyIsdigit val then
      Option.some ("n." ++ pyStripWs key ++ " = " ++ val)
    else
      Option.some ("n." ++ pyStripWs key ++ " = " ++ dquote.toString
        ++ pyStripChar (pyStripChar val squote) dquote ++ dquote.toString)
  else if pyStartsWith (pyUpper part) "HAS " then
    Option.some ("(n)-[:" ++ pyUpper (pyStripWs ⟨part.data.drop 4⟩) ++ "]->()")
  else Option.none

/-- `GraphAdapter._convert_conditions`: split the condition on `AND`,
convert each stripped part, and prefix `WHERE` when anything survived. -/
def convert_conditions (condition : String) : String :=
  if condition = "" then ""
  else
    let cyphers := (pySplitSep "AND" condition).filterMap (fun p => cypher_of_part (pyStripWs p))
    if cyphers.isEmpty then "" else "WHERE " ++ joinSep " AND " cyphers

/-- The builder inside `GraphAdapter._convert_create_properties`: each
comma-separated pair is split on its first colon (`ValueError` when there
is none) and stored, coerced, in an insertion-ordered dict. -/
def convert_create_props_go : List (List Char) → List (String × String) →
    Except PyError (List (String × String))
  | [], props => Except.ok props
  | pair :: rest, props =>
    if containsChar ⟨pair⟩ ':' then
      let (k0, v0) := splitOnceChar ⟨pair⟩ ':'
      convert_create_props_go rest
        (assocUpsert props (pyStripWs k0) (cast_prop_value (pyStripWs v0)))
    else Except.error (PyError.valueError "not enough values to unpack")

/-- `GraphAdapter._convert_create_properties` (lines 127-140). -/
def convert_create_properties (fields : String) : Except PyError String :=
  match convert_create_props_go (splitAllChar ',' fields.data) [] with
  | Except.error e => Except.error e
  | Except.ok props =>
    Except.ok (lbrace.toString
      ++ joinSep ", " (props.map (fun kv => kv.1 ++ ": " ++ kv.2))
      ++ rbrace.toString)

/-- `GraphAdapter.convert_uql` (lines 21-39): dispatch on the uppercased
prefix; FIND/DELETE go through `_extract_label_and_condition` (which raises
`QueryError("Invalid UQL query")` when the regex fails) and CREATE through
`_extract_label_and_body`. -/
def convert_uql (uql0 : String) : Except PyError String :=
  let uql := pyStripWs uql0
  if pyStartsWith (pyUpper uql) "FIND" then
    match matchFindDelete uql with
    | Option.none => Except.error (PyError.queryError "Invalid UQL query")
    | Option.some (label, cond) =>
      Except.ok ("MATCH (n:" ++ label ++ ") " ++ convert_conditions (cond.getD "") ++ " RETURN n;")
  else if pyStartsWith (pyUpper uql) "CREATE" then
    match matchCreateBody uql with
    | Option.none => Except.error (PyError.queryError "Invalid CREATE UQL")
    | Option.some (label, body) =>
      match convert_create_properties body with
      | Except.error e => Except.error e
      | Except.ok props => Except.ok ("CREATE (n:" ++ label ++ " " ++ props ++ ") RETURN n;")
  else if pyStartsWith (pyUpper uql) "DELETE" then
    match matchFindDelete uql with
    | Option.none => Except.error (PyError.queryError "Invalid UQL query")
    | Option.some (label, cond) =>
      Except.ok ("MATCH (n:" ++ label ++ ") " ++ convert_conditions (cond.getD "") ++ " DELETE n;")
  else Except.error (PyError.queryError "Unsupported or invalid UQL syntax")

/-- `GraphAdapter.find` (lines 48-59): ordering or limit is rejected before
anything else; otherwise the call is re-expressed as a FIND UQL statement
and translated (`run_native` returns the translated text unchanged). -/
def find (entity : String) (w : PyWhere) (order_by : Option String)
    (limit : Option Int) : Except PyError String :=
  if order_by.isSome || limit.isSome then
    Except.error (PyError.queryError "GraphAdapter.find currently supports only entity + where")
  else
    let wc := normalize_where w
    convert_uql ("FIND " ++ entity ++ (if wc ≠ "" then " WHERE " ++ wc else ""))

/-- `GraphAdapter.delete` (lines 61-65). -/
def delete (entity : String) (w : PyWhere) : Except PyError String :=
  let wc := normalize_where w
  if wc = "" then Except.error (PyError.queryError "delete requires a non-empty where condition")
  else convert_uql ("DELETE " ++ entity ++ " WHERE " ++ wc)

/-- `GraphAdapter.create` (lines 41-43). -/
def create (entity : String) (data : List (String × PyVal)) : Except PyError String :=
  let body := joinSep ", " (data.map (fun kv => kv.1 ++ ": " ++ to_uql_value kv.2))
  convert_uql ("CREATE " ++ entity ++ " " ++ lbrace.toString ++ body ++ rbrace.toString)

end GraphAdapter

/-- Values of the Mongo-style operation dictionaries the document adapter
builds: primitives, nested documents (insertion-ordered dicts) and arrays. -/
inductive MongoVal where
  | prim (v : PyVal)
  | doc (fields : List (String × MongoVal))
  | arr (elems : List MongoVal)

/-- The operation dictionaries `NoSQLAdapter.convert_uql` returns: they
carry one action key (`find`/`delete`/`insert`), or are the
`{"error": ...}` dictionary the adapter returns for unsupported syntax
(which, unlike a raised `QueryError`, is an ordinary return value). -/
inductive NoSQLNative where
  | findOp (collection : String) (filter : MongoVal)
  | deleteOp (collection : String) (filter : MongoVal)
  | insertOp (collection : String) (document : List (String × PyVal))
  | errorDict (msg : String)

/-- Python dict truthiness for the filters the adapter builds: only the
empty document is falsy. -/
def isEmptyDoc : MongoVal → Bool
  | MongoVal.doc [] => true
  | _ => false

namespace NoSQLAdapter

/-- `NoSQLAdapter._convert_simple_expression` (lines 151-168): first-seen
operator scanning `>` then `<` then `=` then `HAS`; anything else becomes a
`$raw` marker document. -/
def convert_simple_expression (expr : String) : MongoVal :=
  if containsChar expr '>' then
    let (key, val) := splitOnceChar expr '>'
    MongoVal.doc [(pyStripWs key,
      MongoVal.doc [("$gt", MongoVal.prim (cast_value (pyStripWs val)))])]
  else if containsChar expr '<' then
    let (key, val) := splitOnceChar expr '<'
    MongoVal.doc [(pyStripWs key,
      MongoVal.doc [("$lt", MongoVal.prim (cast_value (pyStripWs val)))])]
  else if containsChar expr '=' then
    let (key, val) := splitOnceChar expr '='
    MongoVal.doc [(pyStripWs key, MongoVal.prim (cast_value (pyStripWs val)))]
  else if pyStartsWith (pyUpper expr) "HAS " then
    MongoVal.doc [(pyStripWs ⟨expr.data.drop 4⟩,
      MongoVal.doc [("$exists", MongoVal.prim (PyVal.bool true))])]
  else MongoVal.doc [("$raw", MongoVal.prim (PyVal.str expr))]

/-- Fueled worker for `NoSQLAdapter._convert_condition` (lines 136-149):
an absent or empty condition is the match-all empty document; otherwise OR
then AND splits (a successful `re.search` of the separator is exactly the
split producing more than one part) recurse on the stripped parts.  The
fuel only bounds the recursion depth: it is initialised to the condition
length, and every recursive call is on a strictly shorter string (a split
removed at least one separator of at least four characters), so the
fuel-exhausted fallback is unreachable. -/
def convert_conditionF : Nat → Option String → MongoVal
  | _, Option.none => MongoVal.doc []
  | fuel, Option.some c =>
    if c = "" then MongoVal.doc []
    else
      match fuel with
      | 0 => convert_simple_expression (pyStripWs c)
      | fuel2 + 1 =>
        let orParts := pySplitSep "OR" c
        if 1 < orParts.length then
          MongoVal.doc [("$or", MongoVal.arr
            (orParts.map (fun p => convert_conditionF fuel2 (Option.some (pyStripWs p)))))]
        else
          let andParts := pySplitSep "AND" c
          if 1 < andParts.length then
            MongoVal.doc [("$and", MongoVal.arr
              (andParts.map (fun p => convert_conditionF fuel2 (Option.some (pyStripWs p)))))]
          else convert_simple_expression (pyStripWs c)

/-- `NoSQLAdapter._convert_condition`. -/
def convert_condition (c : Option String) : MongoVal :=
  convert_conditionF ((c.map String.length).getD 0) c

/-- The builder inside `NoSQLAdapter._parse_key_value_pairs` (lines
170-175): comma-separated pairs, each split on its first colon
(`ValueError` when there is none), collected into an insertion-ordered
dict with coerced values. -/
def parse_key_value_pairs_go : List (List Char) → List (String × PyVal) →
    Except PyError (List (String × PyVal))
  | [], acc => Except.ok acc
  | pair :: rest, acc =>
    if containsChar ⟨pair⟩ ':' then
      let (k, v) := splitOnceChar ⟨pair⟩ ':'
      parse_key_value_pairs_go rest
        (assocUpsert acc (pyStripWs k) (cast_value (pyStripWs v)))
    else Except.error (PyError.valueError "not enough values to unpack")

/-- `NoSQLAdapter._parse_key_value_pairs`. -/
def parse_key_value_pairs (fields : String) : Except PyError (List (String × PyVal)) :=
  parse_key_value_pairs_go (splitAllChar ',' fields.data) []

/-- `NoSQLAdapter.convert_uql` (lines 67-87).  FIND/DELETE extract the
collection and optional condition with the same unanchored regex as the
graph adapter, but on a failed match `_extract_collection_and_condition`
returns `(None, None)` and the subsequent `collection.lower()` raises
`AttributeError`.  A CREATE whose regex fails, or an unknown command, is
answered with the `{"error": ...}` dictionary, not an exception. -/
def convert_uql (uql0 : String) : Except PyError NoSQLNative :=
  let uql := pyStripWs uql0
  let cmd := pyUpper uql
  if pyStartsWith cmd "FIND" then
    match matchFindDelete uql with
    | Option.some (coll, cond) =>
      Except.ok (NoSQLNative.findOp (pyLower coll) (convert_condition cond))
    | Option.none =>
      Except.error (PyError.attributeError "NoneType object has no attribute lower")
  else if pyStartsWith cmd "DELETE" then
    match matchFindDelete uql with
    | Option.some (coll, cond) =>
      Except.ok (NoSQLNative.deleteOp (pyLower coll) (convert_condition cond))
    | Option.none =>
      Except.error (PyError.attributeError "NoneType object has no attribute lower")
  else if pyStartsWith cmd "CREATE" then
    match matchCreateBody uql with
    | Option.some (coll, fields) =>
      match parse_key_value_pairs fields with
      | Except.ok document => Except.ok (NoSQLNative.insertOp (pyLower coll) document)
      | Except.error e => Except.error e
    | Option.none => Except.ok (NoSQLNative.errorDict "Unsupported or invalid UQL syntax")
  else Except.ok (NoSQLNative.errorDict "Unsupported or invalid UQL syntax")

/-- `NoSQLAdapter.create` (lines 89-92): an empty payload is rejected; the
insert operation dictionary handed to `run_native` is returned. -/
def create (entity : String) (data : List (String × PyVal)) : Except PyError NoSQLNative :=
  if data.isEmpty then Except.error (PyError.queryError "data must be a non-empty mapping")
  else Except.ok (NoSQLNative.insertOp (pyLower entity) data)

/-- `NoSQLAdapter.find` (lines 100-117): ordering or limit is rejected
before anything else; the filter is the empty document, the mapping taken
as an equality document, or the converted condition string. -/
def find (entity : String) (w : PyWhere) (order_by : Option String)
    (limit : Option Int) : Except PyError NoSQLNative :=
  if order_by.isSome || limit.isSome then
    Except.error (PyError.queryError "NoSQLAdapter.find currently supports only entity + where")
  else
    match w with
    | PyWhere.none => Except.ok (NoSQLNative.findOp (pyLower entity) (MongoVal.doc []))
    | PyWhere.map m =>
      Except.ok (NoSQLNative.findOp (pyLower entity)
        (MongoVal.doc (m.map (fun kv => (kv.1, MongoVal.prim kv.2)))))
    | PyWhere.str s =>
      Except.ok (NoSQLNative.findOp (pyLower entity) (convert_condition (Option.some s)))

/-- `NoSQLAdapter.delete` (lines 119-128): the filter is built as in
`find`, an absent `where` is a type error, and a falsy (empty) filter is
rejected before the delete operation dictionary is built. -/
def delete (entity : String) (w : PyWhere) : Except PyError NoSQLNative :=
  match (match w with
    | PyWhere.map m =>
      Except.ok (MongoVal.doc (m.map (fun kv => (kv.1, MongoVal.prim kv.2))))
    | PyWhere.str s => Except.ok (convert_condition (Option.some s))
    | PyWhere.none => Except.error (PyError.queryError "where must be mapping or string")) with
  | Except.error e => Except.error e
  | Except.ok nw =>
    if isEmptyDoc nw then
      Except.error (PyError.queryError "delete requires a non-empty where condition")
    else Except.ok (NoSQLNative.deleteOp (pyLower entity) nw)

end NoSQLAdapter

/-- Per-adapter mutable state of the relational adapter that the modelled
operations touch: the prepared-statement text cache, the set of tables the
backend has created, and the ordered log of SQL statements handed to
`run_native` (driver results themselves are abstracted away). -/
structure SQLAdapterState where
  preparedCache : List (String × String)
  tables : List String
  issued : List String
deriving DecidableEq, Repr

namespace SQLAlchemyAdapter

/-- Full match of `IDENTIFIER_RE = ^[A-Za-z_][A-Za-z0-9_]*$`. -/
def matchesIdent (s : String) : Bool :=
  match s.data with
  | [] => false
  | c :: cs => isIdentStart c && cs.all isIdentChar

/-- `SQLAlchemyAdapter._validate_identifier` (lines 50-54): the name is
returned unchanged when it fully matches the identifier pattern, otherwise
a `QueryError` is raised.  (The Python message formats the name with `!r`;
the model appends it plainly.) -/
def validate_identifier (name : String) : Except PyError String :=
  if matchesIdent name then Except.ok name
  else Except.error (PyError.queryError ("Invalid SQL identifier: " ++ name))

/-- `SQLiteAdapter._quote`: double-quote the name. -/
def quote (name : String) : String :=
  dquote.toString ++ name ++ dquote.toString

/-- `SQLiteAdapter._type_for_value`: bool/int map to INTEGER, float to
REAL, everything else to TEXT. -/
def type_for_value : PyVal → String
  | PyVal.bool _ => "INTEGER"
  | PyVal.int _ => "INTEGER"
  | PyVal.float _ => "REAL"
  | PyVal.str _ => "TEXT"

/-- `SQLiteAdapter._pk_column_sql`. -/
def pk_column_sql : String :=
  quote "id" ++ " INTEGER PRIMARY KEY AUTOINCREMENT"

/-- Key validation loop of `SQLAlchemyAdapter._validate_data`. -/
def validate_data_keys : List String → Except PyError Unit
  | [] => Except.ok ()
  | k :: ks =>
    match validate_identifier k with
    | Except.error e => Except.error e
    | Except.ok _ => validate_data_keys ks

/-- `SQLAlchemyAdapter._validate_data` (lines 56-60): non-empty mapping,
all keys valid identifiers. -/
def validate_data (data : List (String × PyVal)) : Except PyError Unit :=
  if data.isEmpty then
    Except.error (PyError.queryError "create() requires a non-empty mapping payload")
  else validate_data_keys (data.map Prod.fst)

/-- The `CREATE TABLE IF NOT EXISTS` text built by
`SQLAlchemyAdapter._ensure_table` (lines 62-67). -/
def create_table_sql (entity : String) (data : List (String × PyVal)) : String :=
  let cols := pk_column_sql :: data.map (fun kv => quote kv.1 ++ " " ++ type_for_value kv.2)
  "CREATE TABLE IF NOT EXISTS " ++ quote entity ++ " (" ++ joinSep ", " cols ++ ")"

/-- `SQLAlchemyAdapter._ensure_table` (lines 62-68): issue a
`CREATE TABLE IF NOT EXISTS` statement through `run_native` on every call;
the backend creates the table only when it is absent. -/
def ensure_table (st : SQLAdapterState) (entity : String)
    (data : List (String × PyVal)) : SQLAdapterState :=
  { st with issued := st.issued ++ [create_table_sql entity data],
            tables := if entity ∈ st.tables then st.tables else st.tables ++ [entity] }

/-- The prepared-statement cache key `insert:{entity}:{','.join(cols)}` of
`SQLAlchemyAdapter.create`. -/
def insert_cache_key (entity : String) (data : List (String × PyVal)) : String :=
  "insert:" ++ entity ++ ":" ++ joinSep "," (data.map Prod.fst)

/-- `SQLAlchemyAdapter.create` (lines 96-108): validate, ensure the table,
then fetch or build the INSERT text keyed by `(entity, ordered columns)`.
The result carries the new state, the INSERT text handed to `run_native`,
and whether that text came from the prepared-statement cache. -/
def create (st : SQLAdapterState) (entity : String) (data : List (String × PyVal)) :
    Except PyError (SQLAdapterState × String × Bool) :=
  match validate_identifier entity with
  | Except.error e => Except.error e
  | Except.ok _ =>
    match validate_data data with
    | Except.error e => Except.error e
    | Except.ok _ =>
      let st1 := ensure_table st entity data
      let cols := data.map Prod.fst
      let key := insert_cache_key entity data
      match assocLookup st1.preparedCache key with
      | Option.some sql => Except.ok ({ st1 with issued := st1.issued ++ [sql] }, sql, true)
      | Option.none =>
        let sql := "INSERT INTO " ++ quote entity ++ " (" ++ joinSep ", " (cols.map quote)
          ++ ") VALUES (" ++ joinSep ", " (cols.map (fun c => ":" ++ c)) ++ ")"
        let st2 := { st1 with preparedCache := st1.preparedCache ++ [(key, sql)] }
        Except.ok ({ st2 with issued := st2.issued ++ [sql] }, sql, false)

/-- Parameter-building loop of `_build_where_clause` (lines 141-147):
validate each key and bind its value to a positional `w_i` parameter. -/
def build_where_go (idx : Nat) : List (String × PyVal) →
    Except PyError (List String × List (String × PyVal))
  | [] => Except.ok ([], [])
  | (k, v) :: rest =>
    match validate_identifier k with
    | Except.error e => Except.error e
    | Except.ok _ =>
      let p := "w_" ++ toString idx
      match build_where_go (idx + 1) rest with
      | Except.error e => Except.error e
      | Except.ok (parts, params) =>
        Except.ok ((quote k ++ " = :" ++ p) :: parts, (p, v) :: params)

/-- `SQLAlchemyAdapter._build_where_clause` (lines 131-150): `None` gives
no clause, a string is interpolated verbatim (the legacy trusted path), a
mapping becomes validated equality constraints with bound parameters (empty
mapping gives no clause). -/
def build_where_clause (w : PyWhere) :
    Except PyError (String × List (String × PyVal)) :=
  match w with
  | PyWhere.none => Except.ok ("", [])
  | PyWhere.str s => Except.ok (" WHERE " ++ s, [])
  | PyWhere.map m =>
    match build_where_go 0 m with
    | Except.error e => Except.error e
    | Except.ok (parts, params) =>
      if parts.isEmpty then Except.ok ("", [])
      else Except.ok (" WHERE " ++ joinSep " AND " parts, params)

/-- `SQLAlchemyAdapter.delete` (lines 177-183): an empty where clause is
rejected before any SQL is issued; otherwise the DELETE text and its bound
parameters are handed to `run_native` (returned here). -/
def delete (entity : String) (w : PyWhere) :
    Except PyError (String × List (String × PyVal)) :=
  match validate_identifier entity with
  | Except.error e => Except.error e
  | Except.ok _ =>
    match build_where_clause w with
    | Except.error e => Except.error e
    | Except.ok (whereSql, params) =>
      if whereSql = "" then
        Except.error (PyError.queryError "delete() requires a non-empty where condition")
      else Except.ok ("DELETE FROM " ++ quote entity ++ whereSql, params)

/-- The regex of the DELETE arm of `SQLAlchemyAdapter.convert_uql`:
`DELETE\s+([A-Za-z_][A-Za-z0-9_]*)(?:\s+WHERE\s+(.+))?$` under `re.match`
with `re.IGNORECASE`.  Greedy maximal-munch is faithful: the identifier
cannot give back characters to `\s+` (a word character is not whitespace),
and the end anchor forces either nothing or a full `WHERE` clause after
the identifier. -/
def matchSqlDelete (q : String) : Option (String × Option String) :=
  match matchCI "DELETE".data q.data with
  | Option.none => Option.none
  | Option.some rest0 =>
    if (rest0.takeWhile isPySpace).isEmpty then Option.none
    else
      match rest0.dropWhile isPySpace with
      | [] => Option.none
      | c :: cs =>
        if isIdentStart c then
          let word := c :: cs.takeWhile isIdentChar
          match cs.dropWhile isIdentChar with
          | [] => Option.some (⟨word⟩, Option.none)
          | rest2@(_ :: _) =>
            if (rest2.takeWhile isPySpace).isEmpty then Option.none
            else
              match matchCI "WHERE".data (rest2.dropWhile isPySpace) with
              | Option.none => Option.none
              | Option.some rest4 =>
                if (rest4.takeWhile isPySpace).isEmpty then Option.none
                else
                  let rest5 := rest4.dropWhile isPySpace
                  if rest5.isEmpty then Option.none
                  else Option.some (⟨word⟩, Option.some ⟨rest5⟩)
        else Option.none

/-- The DELETE arm of `SQLAlchemyAdapter.convert_uql` (lines 208-220),
reached when the stripped statement starts (case-insensitively) with
`DELETE `.  The FIND and CREATE arms of `convert_uql` are not modelled;
inputs that do not take the DELETE arm are outside this model and fall to
the method's final `Unsupported UQL command` error here. -/
def convert_uql_delete (uql0 : String) : Except PyError String :=
  let uql := pyStripWs uql0
  if pyStartsWith (pyUpper uql) "DELETE " then
    match matchSqlDelete uql with
    | Option.none => Except.error (PyError.queryError "Invalid DELETE UQL")
    | Option.some (ent, cond) =>
      match validate_identifier ent with
      | Except.error e => Except.error e
      | Except.ok entity =>
        match cond with
        | Option.none => Except.error (PyError.queryError "DELETE UQL requires WHERE")
        | Option.some w => Except.ok ("DELETE FROM " ++ quote entity ++ " WHERE " ++ w)
  else Except.error (PyError.queryError "Unsupported UQL command")

end SQLAlchemyAdapter

/-- ASCII letter. -/
def isAlphaChar (c : Char) : Bool :=
  (65 ≤ c.toNat && c.toNat ≤ 90) || (97 ≤ c.toNat && c.toNat ≤ 122)

/-- Characters allowed after the first one in a URL scheme:
letters, digits, `+`, `-` and `.`. -/
def isSchemeChar (c : Char) : Bool :=
  isAlphaChar c || isDigitChar c || c = '+' || c = '-' || c = '.'

/-- The scheme extraction performed by `urllib.parse.urlparse`: the text
before the first colon when it is non-empty, starts with a letter and
contains only scheme characters; `urlparse` returns it lowercased. -/
def schemeOfUrl (url : String) : Option String :=
  if containsChar url ':' then
    match url.data.takeWhile (fun c => c ≠ ':') with
    | [] => Option.none
    | c :: cs =>
      if isAlphaChar c && cs.all isSchemeChar then Option.some (pyLower ⟨c :: cs⟩)
      else Option.none
  else Option.none

/-- The engine-construction keyword arguments that `get_engine` forwards:
`echo` always; the pooling triple (`pool_size`, `max_overflow`,
`pool_pre_ping`) only for non-sqlite dialects. -/
structure EngineCfg where
  echo : Bool
  pool : Option (Nat × Nat × Bool)
deriving DecidableEq, Repr

/-- A constructed engine: its identity (allocation order), the URL it was
built for and the keyword arguments it was built with. -/
structure Engine where
  engineId : Nat
  url : String
  cfg : EngineCfg
deriving DecidableEq, Repr

/-- The process-wide engine cache of the `ConnectionManager` singleton. -/
structure CMState where
  engines : List (String × Engine)
  nextId : Nat
deriving DecidableEq, Repr

namespace ConnectionManager

/-- `ConnectionManager.parse_url` (lines 46-62), reduced to the dialect
(the scheme before any `+` driver suffix, lowercased); host, port and
database are not modelled because nothing verified here reads them. -/
def parse_url (url : String) : Except PyError String :=
  if pyStripWs url = "" then
    Except.error (PyError.connectionError "Database URL must be a non-empty string")
  else
    match schemeOfUrl url with
    | Option.none => Except.error (PyError.connectionError ("Invalid database URL: " ++ url))
    | Option.some scheme =>
      Except.ok (pyLower ⟨scheme.data.takeWhile (fun c => c ≠ '+')⟩)

/-- `ConnectionManager.get_engine` (lines 64-100): return the cached engine
for the URL if present; otherwise parse the URL, build the engine —
forwarding the pooling arguments only when the dialect is not sqlite — and
publish it in the cache.  Any failure is wrapped in a `ConnectionError`. -/
def get_engine (s : CMState) (url : String) (pool_size max_overflow : Nat)
    (pool_pre_ping echo : Bool) : Except PyError (CMState × Engine) :=
  match assocLookup s.engines url with
  | Option.some e => Except.ok (s, e)
  | Option.none =>
    match parse_url url with
    | Except.error _ =>
      Except.error (PyError.connectionError ("Failed to create engine for URL " ++ url))
    | Except.ok dialect =>
      let cfg : EngineCfg :=
        if dialect ≠ "sqlite" then
          { echo := echo, pool := Option.some (pool_size, max_overflow, pool_pre_ping) }
        else { echo := echo, pool := Option.none }
      let eng : Engine := { engineId := s.nextId, url := url, cfg := cfg }
      Except.ok ({ engines := s.engines ++ [(url, eng)], nextId := s.nextId + 1 }, eng)

end ConnectionManager

/-- The thread-local transaction slot of one execution context together
with the pool view it interacts with: `connection`/`transaction` mirror
`self._local`, `checkedOut` lists the connections checked out of the pool
and not yet closed, `nextConn` allocates fresh connection identities. -/
structure TMState where
  connection : Option Nat
  transaction : Option Nat
  checkedOut : List Nat
  nextConn : Nat
deriving DecidableEq, Repr

namespace TransactionManager

/-- `TransactionManager.begin` (lines 21-29): fails with a
`TransactionError` when the context already holds a connection; otherwise
checks a connection out of the pool, opens its transaction and records both
in the thread-local slot. -/
def begin (s : TMState) : Except PyError (TMState × Nat) :=
  if s.connection.isSome then
    Except.error (PyError.transactionError "Transaction already active on this thread")
  else
    let conn := s.nextConn
    Except.ok ({ connection := Option.some conn, transaction := Option.some conn,
                 checkedOut := conn :: s.checkedOut, nextConn := s.nextConn + 1 }, conn)

/-- `TransactionManager.commit` (lines 31-44): with no active transaction
it raises without touching state; otherwise the underlying `tx.commit()`
may itself raise (the `commitRaises` parameter abstracts the driver), but
the `finally` block always closes the connection (returning it to the
pool) and clears both thread-local fields, and a driver failure surfaces
as `TransactionError("Commit failed")`. -/
def commit (commitRaises : Bool) (s : TMState) : TMState × Option PyError :=
  match s.transaction, s.connection with
  | Option.some _, Option.some c =>
    ({ s with connection := Option.none, transaction := Option.none,
              checkedOut := s.checkedOut.erase c },
     if commitRaises then Option.some (PyError.transactionError "Commit failed")
     else Option.none)
  | _, _ => (s, Option.some (PyError.transactionError "No active transaction to commit"))

/-- `TransactionManager.rollback` (lines 46-59): the mirror image of
`commit`. -/
def rollback (rollbackRaises : Bool) (s : TMState) : TMState × Option PyError :=
  match s.transaction, s.connection with
  | Option.some _, Option.some c =>
    ({ s with connection := Option.none, transaction := Option.none,
              checkedOut := s.checkedOut.erase c },
     if rollbackRaises then Option.some (PyError.transactionError "Rollback failed")
     else Option.none)
  | _, _ => (s, Option.some (PyError.transactionError "No active transaction to rollback"))

end TransactionManager

namespace UDOM

/-- `UDOM.begin` (`DBDuck/udom/udom.py`, lines 178-182): a non-`sql`
`db_type` is rejected with a `TransactionError` before the adapter is
touched; otherwise the call is forwarded to the SQL adapter's transaction
manager. -/
def begin (db_type : String) (s : TMState) : Except PyError (TMState × Nat) :=
  if db_type ≠ "sql" then
    Except.error (PyError.transactionError ("Transactions are not supported for db_type=" ++ db_type))
  else TransactionManager.begin s

/-- `UDOM.commit` (lines 184-188). -/
def commit (db_type : String) (commitRaises : Bool) (s : TMState) :
    TMState × Option PyError :=
  if db_type ≠ "sql" then
    (s, Option.some (PyError.transactionError ("Transactions are not supported for db_type=" ++ db_type)))
  else TransactionManager.commit commitRaises s

/-- `UDOM.rollback` (lines 190-194). -/
def rollback (db_type : String) (rollbackRaises : Bool) (s : TMState) :
    TMState × Option PyError :=
  if db_type ≠ "sql" then
    (s, Option.some (PyError.transactionError ("Transactions are not supported for db_type=" ++ db_type)))
  else TransactionManager.rollback rollbackRaises s

/-- Entering `UDOM.transaction` (lines 196-201): the generator body checks
`db_type` first, so entering the context manager for a non-`sql` backend
raises before `adapter.transaction()` — and hence `begin` — runs. -/
def transactionEnter (db_type : String) (s : TMState) : Except PyError (TMState × Nat) :=
  if db_type ≠ "sql" then
    Except.error (PyError.transactionError ("Transactions are not supported for db_type=" ++ db_type))
  else TransactionManager.begin s

end UDOM

theorem identChar_not_space (c : Char) (h : isIdentChar c = true) : isPySpace c = false := by
  unfold isIdentChar isIdentStart at h
  unfold isPySpace
  simp only [Bool.or_eq_true, Bool.and_eq_true, decide_eq_true_eq] at h
  simp only [Bool.or_eq_false_iff, decide_eq_false_iff_not]
  omega

theorem identStart_identChar (c : Char) (h : isIdentStart c = true) : isIdentChar c = true := by
  unfold isIdentChar
  simp [h]

theorem digit_not_identStart (c : Char) (h : isDigitChar c = true) : isIdentStart c = false := by
  unfold isDigitChar at h
  unfold isIdentStart
  simp only [Bool.and_eq_true, decide_eq_true_eq] at h
  simp only [Bool.or_eq_false_iff, Bool.and_eq_false_iff, decide_eq_false_iff_not]
  omega

theorem takeWhile_all_eq_self {p : Char → Bool} : ∀ {l : List Char},
    (∀ c ∈ l, p c = true) → l.takeWhile p = l
  | [], _ => rfl
  | c :: cs, h => by
    have hc : p c = true := h c (List.mem_cons_self c cs)
    simp only [List.takeWhile_cons, hc, if_true]
    exact congrArg (c :: ·) (takeWhile_all_eq_self (fun x hx => h x (List.mem_cons_of_mem c hx)))

theorem dropWhile_all_eq_nil {p : Char → Bool} : ∀ {l : List Char},
    (∀ c ∈ l, p c = true) → l.dropWhile p = []
  | [], _ => rfl
  | c :: cs, h => by
    have hc : p c = true := h c (List.mem_cons_self c cs)
    simp only [List.dropWhile_cons, hc, if_true]
    exact dropWhile_all_eq_nil (fun x hx => h x (List.mem_cons_of_mem c hx))

/-- If every character of the identifier is an identifier character, the
whole string survives `matchesIdent`-style scans; conversely a whitespace
character refutes the match. -/
theorem matchesIdent_all_identChar {i : String}
    (h : SQLAlchemyAdapter.matchesIdent i = true) : ∀ c ∈ i.data, isIdentChar c = true := by
  unfold SQLAlchemyAdapter.matchesIdent at h
  intro c hc
  cases hd : i.data with
  | nil => rw [hd] at hc; cases hc
  | cons x xs =>
    rw [hd] at h hc
    simp only [Bool.and_eq_true, List.all_eq_true] at h
    cases hc with
    | head => exact identStart_identChar c h.1
    | tail _ hmem => exact h.2 c hmem

/-- C8: strings matching `^[A-Za-z_][A-Za-z0-9_]*$` pass
`_validate_identifier` unchanged; strings containing whitespace, starting
with a digit, or containing any character outside `[A-Za-z0-9_]` are
rejected with a `QueryError`; and `create` applies this validation to the
entity name and to every field name, failing before any SQL is built when
one is invalid. -/
theorem C8_validate_identifier (i : String) :
    (SQLAlchemyAdapter.matchesIdent i = true →
      SQLAlchemyAdapter.validate_identifier i = Except.ok i)
    ∧ (i.data.any isPySpace = true →
      SQLAlchemyAdapter.validate_identifier i
        = Except.error (PyError.queryError ("Invalid SQL identifier: " ++ i)))
    ∧ (∀ c cs, i.data = c :: cs → isDigitChar c = true →
      SQLAlchemyAdapter.validate_identifier i
        = Except.error (PyError.queryError ("Invalid SQL identifier: " ++ i)))
    ∧ (i.data.any (fun c => !isIdentChar c) = true →
      SQLAlchemyAdapter.validate_identifier i
        = Except.error (PyError.queryError ("Invalid SQL identifier: " ++ i)))
    ∧ (∀ st data, SQLAlchemyAdapter.matchesIdent i = false →
      SQLAlchemyAdapter.create st i data
        = Except.error (PyError.queryError ("Invalid SQL identifier: " ++ i)))
    ∧ (∀ st e v, SQLAlchemyAdapter.matchesIdent e = true →
      SQLAlchemyAdapter.matchesIdent i = false →
      SQLAlchemyAdapter.create st e [(i, v)]
        = Except.error (PyError.queryError ("Invalid SQL identifier: " ++ i))) := by
  refine ⟨?_, ?_, ?_, ?_, ?_, ?_⟩
  · intro h
    unfold SQLAlchemyAdapter.validate_identifier
    simp [h]
  · intro hany
    cases hmi : SQLAlchemyAdapter.matchesIdent i with
    | false => unfold SQLAlchemyAdapter.validate_identifier; simp [hmi]
    | true =>
      exfalso
      obtain ⟨x, hx, hsp⟩ := List.any_eq_true.mp hany
      have hic := matchesIdent_all_identChar hmi x hx
      rw [identChar_not_space x hic] at hsp
      cases hsp
  · intro c cs hd hdig
    have hmi : SQLAlchemyAdapter.matchesIdent i = false := by
      unfold SQLAlchemyAdapter.matchesIdent
      rw [hd]
      simp [digit_not_identStart c hdig]
    unfold SQLAlchemyAdapter.validate_identifier
    simp [hmi]
  · intro hany
    cases hmi : SQLAlchemyAdapter.matchesIdent i with
    | false => unfold SQLAlchemyAdapter.validate_identifier; simp [hmi]
    | true =>
      exfalso
      obtain ⟨x, hx, hbad⟩ := List.any_eq_true.mp hany
      have hic := matchesIdent_all_identChar hmi x hx
      rw [hic] at hbad
      cases hbad
  · intro st data hmi
    unfold SQLAlchemyAdapter.create SQLAlchemyAdapter.validate_identifier
    simp [hmi]
  · intro st e v he hmi
    unfold SQLAlchemyAdapter.create SQLAlchemyAdapter.validate_identifier
    unfold SQLAlchemyAdapter.validate_data SQLAlchemyAdapter.validate_data_keys
    unfold SQLAlchemyAdapter.validate_identifier
    simp [he, hmi]

/-- C8 witness: the validator and `create` evaluated at representative
concrete identifiers through the theorem. -/
theorem C8_validate_identifier_witness :
    SQLAlchemyAdapter.validate_identifier "order_id" = Except.ok "order_id"
    ∧ SQLAlchemyAdapter.validate_identifier "a b"
        = Except.error (PyError.queryError "Invalid SQL identifier: a b")
    ∧ SQLAlchemyAdapter.validate_identifier "1bad"
        = Except.error (PyError.queryError "Invalid SQL identifier: 1bad")
    ∧ SQLAlchemyAdapter.validate_identifier "a-b"
        = Except.error (PyError.queryError "Invalid SQL identifier: a-b")
    ∧ SQLAlchemyAdapter.create ⟨[], [], []⟩ "a b" [("x", PyVal.int 1)]
        = Except.error (PyError.queryError "Invalid SQL identifier: a b")
    ∧ SQLAlchemyAdapter.create ⟨[], [], []⟩ "Orders" [("a b", PyVal.int 1)]
        = Except.error (PyError.queryError "Invalid SQL identifier: a b") :=
  ⟨(C8_validate_identifier "order_id").1 (by decide),
   (C8_validate_identifier "a b").2.1 (by decide),
   (C8_validate_identifier "1bad").2.2.1 '1' "bad".data (by decide) (by decide),
   (C8_validate_identifier "a-b").2.2.2.1 (by decide),
   (C8_validate_identifier "a b").2.2.2.2.1 ⟨[], [], []⟩ [("x", PyVal.int 1)] (by decide),
   (C8_validate_identifier "a b").2.2.2.2.2 ⟨[], [], []⟩ "Orders" (PyVal.int 1) (by decide) (by decide)⟩

/-- C2: per execution context the transaction manager is the state machine
IDLE → IN_TRANSACTION → IDLE.  From an IDLE context, `begin` succeeds and a
second `begin` without an intervening commit/rollback always fails with a
`TransactionError`; after `begin; commit` or `begin; rollback` the context
holds no connection and no transaction (IDLE) and the checked-out
connection has been closed back to the pool (the checked-out set is
restored); `commit` and `rollback` called while IDLE fail with a
`TransactionError` and leave the state untouched. -/
theorem C2_transaction_state_machine (s : TMState)
    (hidle : s.connection = Option.none) :
    (∃ s1 c, TransactionManager.begin s = Except.ok (s1, c)
      ∧ TransactionManager.begin s1
          = Except.error (PyError.transactionError "Transaction already active on this thread")
      ∧ (TransactionManager.commit false s1).1.connection = Option.none
      ∧ (TransactionManager.commit false s1).1.transaction = Option.none
      ∧ (TransactionManager.commit false s1).1.checkedOut = s.checkedOut
      ∧ (TransactionManager.commit false s1).2 = Option.none
      ∧ (TransactionManager.rollback false s1).1.connection = Option.none
      ∧ (TransactionManager.rollback false s1).1.transaction = Option.none
      ∧ (TransactionManager.rollback false s1).1.checkedOut = s.checkedOut
      ∧ (TransactionManager.rollback false s1).2 = Option.none)
    ∧ (∀ raises, TransactionManager.commit raises s
        = (s, Option.some (PyError.transactionError "No active transaction to commit")))
    ∧ (∀ raises, TransactionManager.rollback raises s
        = (s, Option.some (PyError.transactionError "No active transaction to rollback"))) := by
  refine ⟨⟨⟨Option.some s.nextConn, Option.some s.nextConn,
            s.nextConn :: s.checkedOut, s.nextConn + 1⟩, s.nextConn, ?_, ?_, ?_⟩, ?_, ?_⟩
  · unfold TransactionManager.begin
    simp [hidle]
  · unfold TransactionManager.begin
    simp
  · unfold TransactionManager.commit TransactionManager.rollback
    simp [List.erase_cons_head]
  · intro raises
    unfold TransactionManager.commit
    rw [hidle]
    cases s.transaction <;> rfl
  · intro raises
    unfold TransactionManager.rollback
    rw [hidle]
    cases s.transaction <;> rfl

/-- C2 witness: the state machine run from the fresh IDLE context. -/
theorem C2_transaction_state_machine_witness :
    ∃ s1 c, TransactionManager.begin ⟨Option.none, Option.none, [], 0⟩ = Except.ok (s1, c)
      ∧ TransactionManager.begin s1
          = Except.error (PyError.transactionError "Transaction already active on this thread")
      ∧ (TransactionManager.commit false s1).1.connection = Option.none
      ∧ (TransactionManager.commit false s1).1.transaction = Option.none
      ∧ (TransactionManager.commit false s1).1.checkedOut
          = (⟨Option.none, Option.none, [], 0⟩ : TMState).checkedOut
      ∧ (TransactionManager.commit false s1).2 = Option.none
      ∧ (TransactionManager.rollback false s1).1.connection = Option.none
      ∧ (TransactionManager.rollback false s1).1.transaction = Option.none
      ∧ (TransactionManager.rollback false s1).1.checkedOut
          = (⟨Option.none, Option.none, [], 0⟩ : TMState).checkedOut
      ∧ (TransactionManager.rollback false s1).2 = Option.none :=
  (C2_transaction_state_machine ⟨Option.none, Option.none, [], 0⟩ rfl).1

/-- C3: with a transaction active, `commit` and `rollback` always clear the
context's handle and close the checked-out connection, even when the
underlying driver commit/rollback raises; in the raising case the error
surfaces as a `TransactionError`, and a subsequent `begin` on the resulting
state succeeds, so the connection is not leaked. -/
theorem C3_commit_rollback_always_release (s : TMState) (c t : Nat)
    (hc : s.connection = Option.some c) (ht : s.transaction = Option.some t) :
    (∀ raises,
      (TransactionManager.commit raises s).1.connection = Option.none
      ∧ (TransactionManager.commit raises s).1.transaction = Option.none
      ∧ (TransactionManager.commit raises s).1.checkedOut = s.checkedOut.erase c
      ∧ (raises = true → (TransactionManager.commit raises s).2
          = Option.some (PyError.transactionError "Commit failed"))
      ∧ (∃ s2 c2, TransactionManager.begin (TransactionManager.commit raises s).1
          = Except.ok (s2, c2)))
    ∧ (∀ raises,
      (TransactionManager.rollback raises s).1.connection = Option.none
      ∧ (TransactionManager.rollback raises s).1.transaction = Option.none
      ∧ (TransactionManager.rollback raises s).1.checkedOut = s.checkedOut.erase c
      ∧ (raises = true → (TransactionManager.rollback raises s).2
          = Option.some (PyError.transactionError "Rollback failed"))
      ∧ (∃ s2 c2, TransactionManager.begin (TransactionManager.rollback raises s).1
          = Except.ok (s2, c2))) := by
  constructor
  · intro raises
    unfold TransactionManager.commit
    rw [hc, ht]
    refine ⟨rfl, rfl, rfl, fun hr => by subst hr; rfl, ?_⟩
    exact ⟨_, _, rfl⟩
  · intro raises
    unfold TransactionManager.rollback
    rw [hc, ht]
    refine ⟨rfl, rfl, rfl, fun hr => by subst hr; rfl, ?_⟩
    exact ⟨_, _, rfl⟩

/-- C3 witness: commit and rollback with a raising driver on a concrete
active transaction. -/
theorem C3_commit_rollback_always_release_witness :
    ((TransactionManager.commit true ⟨Option.some 0, Option.some 0, [0], 1⟩).1.connection
        = Option.none
      ∧ (TransactionManager.commit true ⟨Option.some 0, Option.some 0, [0], 1⟩).1.transaction
        = Option.none
      ∧ (TransactionManager.commit true ⟨Option.some 0, Option.some 0, [0], 1⟩).1.checkedOut
        = [0].erase 0
      ∧ (true = true → (TransactionManager.commit true ⟨Option.some 0, Option.some 0, [0], 1⟩).2
        = Option.some (PyError.transactionError "Commit failed"))
      ∧ (∃ s2 c2, TransactionManager.begin
          (TransactionManager.commit true ⟨Option.some 0, Option.some 0, [0], 1⟩).1
        = Except.ok (s2, c2))) :=
  (C3_commit_rollback_always_release ⟨Option.some 0, Option.some 0, [0], 1⟩ 0 0 rfl rfl).1 true

/-- C9: compiling `FIND User WHERE age > 25 AND active = true` with the
graph code generator yields exactly the Cypher text of the scenario. -/
theorem C9_graph_find_scenario :
    GraphAdapter.convert_uql "FIND User WHERE age > 25 AND active = true"
      = Except.ok "MATCH (n:User) WHERE n.age > 25 AND n.active = true RETURN n;" := by
  decide

/-- C10: for a facade configured with a non-`sql` `db_type`, `begin`,
`commit`, `rollback` and entering `transaction()` all raise a
`TransactionError` carrying the configured type, before any adapter
operation runs (the transaction state is returned untouched). -/
theorem C10_facade_guards_non_sql (db_type : String) (s : TMState)
    (commitRaises rollbackRaises : Bool) (h : db_type ≠ "sql") :
    UDOM.begin db_type s
      = Except.error (PyError.transactionError
          ("Transactions are not supported for db_type=" ++ db_type))
    ∧ UDOM.commit db_type commitRaises s
      = (s, Option.some (PyError.transactionError
          ("Transactions are not supported for db_type=" ++ db_type)))
    ∧ UDOM.rollback db_type rollbackRaises s
      = (s, Option.some (PyError.transactionError
          ("Transactions are not supported for db_type=" ++ db_type)))
    ∧ UDOM.transactionEnter db_type s
      = Except.error (PyError.transactionError
          ("Transactions are not supported for db_type=" ++ db_type)) := by
  unfold UDOM.begin UDOM.commit UDOM.rollback UDOM.transactionEnter
  simp [h]

/-- C10 witness: the guards evaluated for a `nosql` facade. -/
theorem C10_facade_guards_non_sql_witness :
    UDOM.begin "nosql" ⟨Option.none, Option.none, [], 0⟩
      = Except.error (PyError.transactionError
          "Transactions are not supported for db_type=nosql")
    ∧ UDOM.commit "nosql" false ⟨Option.none, Option.none, [], 0⟩
      = (⟨Option.none, Option.none, [], 0⟩, Option.some (PyError.transactionError
          "Transactions are not supported for db_type=nosql"))
    ∧ UDOM.rollback "nosql" false ⟨Option.none, Option.none, [], 0⟩
      = (⟨Option.none, Option.none, [], 0⟩, Option.some (PyError.transactionError
          "Transactions are not supported for db_type=nosql"))
    ∧ UDOM.transactionEnter "nosql" ⟨Option.none, Option.none, [], 0⟩
      = Except.error (PyError.transactionError
          "Transactions are not supported for db_type=nosql") :=
  C10_facade_guards_non_sql "nosql" ⟨Option.none, Option.none, [], 0⟩ false false (by decide)

theorem assocLookup_append_right {α : Type} (l : List (String × α)) (k : String) (v : α)
    (h : assocLookup l k = Option.none) :
    assocLookup (l ++ [(k, v)]) k = Option.some v := by
  induction l with
  | nil => simp [assocLookup]
  | cons kv rest ih =>
    obtain ⟨k2, v2⟩ := kv
    unfold assocLookup at h ⊢
    by_cases hk : k2 = k
    · simp [hk] at h
    · simp only [List.cons_append, hk, if_false, if_neg hk] at h ⊢
      exact ih h

/-- C6: the connection manager maps a URL to at most one engine: after any
successful `get_engine` call, every later `get_engine` call for the same
URL — with any pooling parameters — returns the identical cached engine and
leaves the cache unchanged; and when the call built the engine (cache
miss), the pooling parameters were forwarded exactly when the URL's dialect
is not `sqlite`. -/
theorem C6_engine_cached_per_url (s s2 : CMState) (url : String) (e : Engine)
    (ps mo : Nat) (pp ec : Bool)
    (h : ConnectionManager.get_engine s url ps mo pp ec = Except.ok (s2, e)) :
    (∀ ps2 mo2 pp2 ec2,
      ConnectionManager.get_engine s2 url ps2 mo2 pp2 ec2 = Except.ok (s2, e))
    ∧ (assocLookup s.engines url = Option.none →
        (ConnectionManager.parse_url url = Except.ok "sqlite" → e.cfg.pool = Option.none)
        ∧ (∀ d, ConnectionManager.parse_url url = Except.ok d → d ≠ "sqlite" →
            e.cfg.pool = Option.some (ps, mo, pp))) := by
  unfold ConnectionManager.get_engine at h
  cases hl : assocLookup s.engines url with
  | some e0 =>
    rw [hl] at h
    simp only [Except.ok.injEq, Prod.mk.injEq] at h
    obtain ⟨hs, he⟩ := h
    subst hs
    subst he
    constructor
    · intro ps2 mo2 pp2 ec2
      unfold ConnectionManager.get_engine
      rw [hl]
    · intro hnone
      exact Option.noConfusion hnone
  | none =>
    rw [hl] at h
    cases hp : ConnectionManager.parse_url url with
    | error e1 =>
      rw [hp] at h
      cases h
    | ok d =>
      rw [hp] at h
      by_cases hd : d = "sqlite"
      · subst hd
        simp only [ne_eq, not_true_eq_false, if_false, Except.ok.injEq, Prod.mk.injEq] at h
        obtain ⟨hs, he⟩ := h
        subst hs
        subst he
        constructor
        · intro ps2 mo2 pp2 ec2
          unfold ConnectionManager.get_engine
          rw [assocLookup_append_right s.engines url _ hl]
        · intro _
          constructor
          · intro _
            rfl
          · intro d2 hp2 hd2
            exact absurd (Except.ok.inj hp2).symm hd2
      · simp only [ne_eq, hd, not_false_eq_true, if_true, Except.ok.injEq, Prod.mk.injEq] at h
        obtain ⟨hs, he⟩ := h
        subst hs
        subst he
        constructor
        · intro ps2 mo2 pp2 ec2
          unfold ConnectionManager.get_engine
          rw [assocLookup_append_right s.engines url _ hl]
        · intro _
          constructor
          · intro hp2
            exact absurd (Except.ok.inj hp2) hd
          · intro d2 hp2 hd2
            rfl

/-- C6 witness: a sqlite URL built fresh and a mysql URL built fresh, both
through the theorem. -/
theorem C6_engine_cached_per_url_witness :
    (∀ ps2 mo2 pp2 ec2,
      ConnectionManager.get_engine
        ⟨[("sqlite:///t.db", ⟨0, "sqlite:///t.db", ⟨false, Option.none⟩⟩)], 1⟩
        "sqlite:///t.db" ps2 mo2 pp2 ec2
      = Except.ok (⟨[("sqlite:///t.db", ⟨0, "sqlite:///t.db", ⟨false, Option.none⟩⟩)], 1⟩,
          ⟨0, "sqlite:///t.db", ⟨false, Option.none⟩⟩))
    ∧ (assocLookup (⟨[], 0⟩ : CMState).engines "sqlite:///t.db" = Option.none →
        (ConnectionManager.parse_url "sqlite:///t.db" = Except.ok "sqlite" →
          (⟨0, "sqlite:///t.db", ⟨false, Option.none⟩⟩ : Engine).cfg.pool = Option.none)
        ∧ (∀ d, ConnectionManager.parse_url "sqlite:///t.db" = Except.ok d → d ≠ "sqlite" →
            (⟨0, "sqlite:///t.db", ⟨false, Option.none⟩⟩ : Engine).cfg.pool
              = Option.some (5, 10, true))) :=
  C6_engine_cached_per_url ⟨[], 0⟩
    ⟨[("sqlite:///t.db", ⟨0, "sqlite:///t.db", ⟨false, Option.none⟩⟩)], 1⟩
    "sqlite:///t.db" ⟨0, "sqlite:///t.db", ⟨false, Option.none⟩⟩ 5 10 true false (by decide)

theorem validate_identifier_ok_eq {n v : String}
    (h : SQLAlchemyAdapter.validate_identifier n = Except.ok v) : v = n := by
  unfold SQLAlchemyAdapter.validate_identifier at h
  split at h
  · exact (Except.ok.inj h).symm
  · exact Except.noConfusion h

/-- What a successful `create` guarantees: both validations passed, the
INSERT text is in the prepared cache afterwards, the table exists
afterwards, and the call issued exactly the table-creation statement
followed by the INSERT. -/
theorem create_ok_facts {st : SQLAdapterState} {entity : String}
    {data : List (String × PyVal)} {s1 : SQLAdapterState} {sql1 : String} {b1 : Bool}
    (h : SQLAlchemyAdapter.create st entity data = Except.ok (s1, sql1, b1)) :
    SQLAlchemyAdapter.validate_identifier entity = Except.ok entity
    ∧ SQLAlchemyAdapter.validate_data data = Except.ok ()
    ∧ assocLookup s1.preparedCache (SQLAlchemyAdapter.insert_cache_key entity data)
        = Option.some sql1
    ∧ entity ∈ s1.tables
    ∧ s1.issued = st.issued ++ [SQLAlchemyAdapter.create_table_sql entity data, sql1] := by
  unfold SQLAlchemyAdapter.create at h
  split at h
  next e heq => exact Except.noConfusion h
  next v heq =>
    have hveq : SQLAlchemyAdapter.validate_identifier entity = Except.ok entity := by
      rw [heq, validate_identifier_ok_eq heq]
    split at h
    next e2 heq2 => exact Except.noConfusion h
    next u heq2 =>
      have hvd : SQLAlchemyAdapter.validate_data data = Except.ok () := heq2
      dsimp only at h
      split at h
      next sql hlook =>
        simp only [Except.ok.injEq, Prod.mk.injEq] at h
        obtain ⟨hs, hsql, hb⟩ := h
        subst hs
        subst hsql
        refine ⟨hveq, hvd, hlook, ?_, ?_⟩
        · show entity ∈ (SQLAlchemyAdapter.ensure_table st entity data).tables
          unfold SQLAlchemyAdapter.ensure_table
          by_cases hm : entity ∈ st.tables
          · simp [hm]
          · simp [hm]
        · show (SQLAlchemyAdapter.ensure_table st entity data).issued ++ [sql] = _
          unfold SQLAlchemyAdapter.ensure_table
          simp
      next hlook =>
        simp only [Except.ok.injEq, Prod.mk.injEq] at h
        obtain ⟨hs, hsql, hb⟩ := h
        subst hs
        subst hsql
        refine ⟨hveq, hvd, ?_, ?_, ?_⟩
        · show assocLookup ((SQLAlchemyAdapter.ensure_table st entity data).preparedCache
            ++ [(SQLAlchemyAdapter.insert_cache_key entity data, _)]) _ = _
          exact assocLookup_append_right _ _ _ hlook
        · show entity ∈ (SQLAlchemyAdapter.ensure_table st entity data).tables
          unfold SQLAlchemyAdapter.ensure_table
          by_cases hm : entity ∈ st.tables
          · simp [hm]
          · simp [hm]
        · show (SQLAlchemyAdapter.ensure_table st entity data).issued ++ [_] = _
          unfold SQLAlchemyAdapter.ensure_table
          simp

/-- C7 (counterexample): two identical `create` calls on a fresh adapter.
The second call does reuse the cached INSERT text (same SQL, cache hit),
but the issued-statement log shows the `CREATE TABLE IF NOT EXISTS`
statement a second time: a table-creation statement IS re-issued on the
second call, contradicting the claim. -/
theorem C7_counterexample :
    SQLAlchemyAdapter.create ⟨[], [], []⟩ "Orders" [("order_id", PyVal.int 101)]
      = Except.ok
        (⟨[("insert:Orders:order_id", "INSERT INTO \"Orders\" (\"order_id\") VALUES (:order_id)")],
          ["Orders"],
          ["CREATE TABLE IF NOT EXISTS \"Orders\" (\"id\" INTEGER PRIMARY KEY AUTOINCREMENT, \"order_id\" INTEGER)",
           "INSERT INTO \"Orders\" (\"order_id\") VALUES (:order_id)"]⟩,
         "INSERT INTO \"Orders\" (\"order_id\") VALUES (:order_id)", false)
    ∧ SQLAlchemyAdapter.create
        ⟨[("insert:Orders:order_id", "INSERT INTO \"Orders\" (\"order_id\") VALUES (:order_id)")],
          ["Orders"],
          ["CREATE TABLE IF NOT EXISTS \"Orders\" (\"id\" INTEGER PRIMARY KEY AUTOINCREMENT, \"order_id\" INTEGER)",
           "INSERT INTO \"Orders\" (\"order_id\") VALUES (:order_id)"]⟩
        "Orders" [("order_id", PyVal.int 101)]
      = Except.ok
        (⟨[("insert:Orders:order_id", "INSERT INTO \"Orders\" (\"order_id\") VALUES (:order_id)")],
          ["Orders"],
          ["CREATE TABLE IF NOT EXISTS \"Orders\" (\"id\" INTEGER PRIMARY KEY AUTOINCREMENT, \"order_id\" INTEGER)",
           "INSERT INTO \"Orders\" (\"order_id\") VALUES (:order_id)",
           "CREATE TABLE IF NOT EXISTS \"Orders\" (\"id\" INTEGER PRIMARY KEY AUTOINCREMENT, \"order_id\" INTEGER)",
           "INSERT INTO \"Orders\" (\"order_id\") VALUES (:order_id)"]⟩,
         "INSERT INTO \"Orders\" (\"order_id\") VALUES (:order_id)", true) :=
  ⟨rfl, rfl⟩

/-- C7 (amended): calling `create` twice with identical entity and columns
reuses the cached generated INSERT statement — the second call returns the
same SQL text, taken from the prepared-statement cache — and the second
call does not re-create the table (the table set is unchanged); however it
does re-issue the `CREATE TABLE IF NOT EXISTS` statement, which the
backend ignores because the table exists. -/
theorem C7_create_reuses_cache (st : SQLAdapterState) (entity : String)
    (data : List (String × PyVal)) (s1 s2 : SQLAdapterState)
    (sql1 sql2 : String) (b1 b2 : Bool)
    (h1 : SQLAlchemyAdapter.create st entity data = Except.ok (s1, sql1, b1))
    (h2 : SQLAlchemyAdapter.create s1 entity data = Except.ok (s2, sql2, b2)) :
    sql2 = sql1 ∧ b2 = true ∧ s2.tables = s1.tables
    ∧ s2.issued = s1.issued ++ [SQLAlchemyAdapter.create_table_sql entity data, sql1] := by
  obtain ⟨hve, hvd, hcache, hmem, _⟩ := create_ok_facts h1
  unfold SQLAlchemyAdapter.create at h2
  simp only [hve, hvd] at h2
  unfold SQLAlchemyAdapter.ensure_table at h2
  simp only [hcache, if_pos hmem, Except.ok.injEq, Prod.mk.injEq] at h2
  obtain ⟨hs, hsql, hb⟩ := h2
  subst hs
  subst hsql
  subst hb
  refine ⟨rfl, rfl, rfl, ?_⟩
  simp

/-- C7 witness: the amended theorem applied to the concrete double run of
the counterexample. -/
theorem C7_create_reuses_cache_witness :
    "INSERT INTO \"Orders\" (\"order_id\") VALUES (:order_id)"
      = "INSERT INTO \"Orders\" (\"order_id\") VALUES (:order_id)"
    ∧ true = true
    ∧ (⟨[("insert:Orders:order_id", "INSERT INTO \"Orders\" (\"order_id\") VALUES (:order_id)")],
        ["Orders"],
        ["CREATE TABLE IF NOT EXISTS \"Orders\" (\"id\" INTEGER PRIMARY KEY AUTOINCREMENT, \"order_id\" INTEGER)",
         "INSERT INTO \"Orders\" (\"order_id\") VALUES (:order_id)",
         "CREATE TABLE IF NOT EXISTS \"Orders\" (\"id\" INTEGER PRIMARY KEY AUTOINCREMENT, \"order_id\" INTEGER)",
         "INSERT INTO \"Orders\" (\"order_id\") VALUES (:order_id)"]⟩ : SQLAdapterState).tables
      = (⟨[("insert:Orders:order_id", "INSERT INTO \"Orders\" (\"order_id\") VALUES (:order_id)")],
        ["Orders"],
        ["CREATE TABLE IF NOT EXISTS \"Orders\" (\"id\" INTEGER PRIMARY KEY AUTOINCREMENT, \"order_id\" INTEGER)",
         "INSERT INTO \"Orders\" (\"order_id\") VALUES (:order_id)"]⟩ : SQLAdapterState).tables
    ∧ (⟨[("insert:Orders:order_id", "INSERT INTO \"Orders\" (\"order_id\") VALUES (:order_id)")],
        ["Orders"],
        ["CREATE TABLE IF NOT EXISTS \"Orders\" (\"id\" INTEGER PRIMARY KEY AUTOINCREMENT, \"order_id\" INTEGER)",
         "INSERT INTO \"Orders\" (\"order_id\") VALUES (:order_id)",
         "CREATE TABLE IF NOT EXISTS \"Orders\" (\"id\" INTEGER PRIMARY KEY AUTOINCREMENT, \"order_id\" INTEGER)",
         "INSERT INTO \"Orders\" (\"order_id\") VALUES (:order_id)"]⟩ : SQLAdapterState).issued
      = (⟨[("insert:Orders:order_id", "INSERT INTO \"Orders\" (\"order_id\") VALUES (:order_id)")],
        ["Orders"],
        ["CREATE TABLE IF NOT EXISTS \"Orders\" (\"id\" INTEGER PRIMARY KEY AUTOINCREMENT, \"order_id\" INTEGER)",
         "INSERT INTO \"Orders\" (\"order_id\") VALUES (:order_id)"]⟩ : SQLAdapterState).issued
        ++ [SQLAlchemyAdapter.create_table_sql "Orders" [("order_id", PyVal.int 101)],
            "INSERT INTO \"Orders\" (\"order_id\") VALUES (:order_id)"] :=
  C7_create_reuses_cache ⟨[], [], []⟩ "Orders" [("order_id", PyVal.int 101)]
    ⟨[("insert:Orders:order_id", "INSERT INTO \"Orders\" (\"order_id\") VALUES (:order_id)")],
      ["Orders"],
      ["CREATE TABLE IF NOT EXISTS \"Orders\" (\"id\" INTEGER PRIMARY KEY AUTOINCREMENT, \"order_id\" INTEGER)",
       "INSERT INTO \"Orders\" (\"order_id\") VALUES (:order_id)"]⟩
    ⟨[("insert:Orders:order_id", "INSERT INTO \"Orders\" (\"order_id\") VALUES (:order_id)")],
      ["Orders"],
      ["CREATE TABLE IF NOT EXISTS \"Orders\" (\"id\" INTEGER PRIMARY KEY AUTOINCREMENT, \"order_id\" INTEGER)",
       "INSERT INTO \"Orders\" (\"order_id\") VALUES (:order_id)",
       "CREATE TABLE IF NOT EXISTS \"Orders\" (\"id\" INTEGER PRIMARY KEY AUTOINCREMENT, \"order_id\" INTEGER)",
       "INSERT INTO \"Orders\" (\"order_id\") VALUES (:order_id)"]⟩
    "INSERT INTO \"Orders\" (\"order_id\") VALUES (:order_id)"
    "INSERT INTO \"Orders\" (\"order_id\") VALUES (:order_id)"
    false true (by decide) (by decide)

/-- C5 (counterexample): compiling a UQL FIND statement containing ORDER BY
or LIMIT does not fail on the non-relational generators, contradicting the
claim: the graph generator silently drops the ORDER BY clause, the document
generator treats it as an absent condition, and a LIMIT following a WHERE
is absorbed into the comparison value text. -/
theorem C5_counterexample :
    GraphAdapter.convert_uql "FIND User ORDER BY age"
      = Except.ok "MATCH (n:User)  RETURN n;"
    ∧ NoSQLAdapter.convert_uql "FIND User ORDER BY age"
      = Except.ok (NoSQLNative.findOp "user" (MongoVal.doc []))
    ∧ GraphAdapter.convert_uql "FIND User WHERE age > 5 LIMIT 10"
      = Except.ok "MATCH (n:User) WHERE n.age > 5 LIMIT 10 RETURN n;" :=
  ⟨rfl, rfl, rfl⟩

/-- C5 (amended): requesting an ordering or a row limit through
`find(entity, where, order_by, limit)` fails with an error on both
non-relational adapters (graph and document) before anything else runs;
but compiling a UQL FIND statement containing an ORDER BY or LIMIT clause
does not fail — the non-relational translators silently ignore or absorb
the clauses, as witnessed on concrete statements. -/
theorem C5_find_rejects_order_limit (entity : String) (w : PyWhere)
    (ob : Option String) (lim : Option Int)
    (h : (ob.isSome || lim.isSome) = true) :
    GraphAdapter.find entity w ob lim
      = Except.error (PyError.queryError "GraphAdapter.find currently supports only entity + where")
    ∧ NoSQLAdapter.find entity w ob lim
      = Except.error (PyError.queryError "NoSQLAdapter.find currently supports only entity + where")
    ∧ GraphAdapter.convert_uql "FIND User ORDER BY age"
      = Except.ok "MATCH (n:User)  RETURN n;"
    ∧ NoSQLAdapter.convert_uql "FIND User LIMIT 5"
      = Except.ok (NoSQLNative.findOp "user" (MongoVal.doc [])) := by
  unfold GraphAdapter.find NoSQLAdapter.find
  refine ⟨by simp [h], by simp [h], rfl, rfl⟩

/-- C5 witness: the amended theorem applied with a concrete ordering
request. -/
theorem C5_find_rejects_order_limit_witness :
    GraphAdapter.find "User" PyWhere.none (Option.some "age") Option.none
      = Except.error (PyError.queryError "GraphAdapter.find currently supports only entity + where")
    ∧ NoSQLAdapter.find "User" PyWhere.none (Option.some "age") Option.none
      = Except.error (PyError.queryError "NoSQLAdapter.find currently supports only entity + where")
    ∧ GraphAdapter.convert_uql "FIND User ORDER BY age"
      = Except.ok "MATCH (n:User)  RETURN n;"
    ∧ NoSQLAdapter.convert_uql "FIND User LIMIT 5"
      = Except.ok (NoSQLNative.findOp "user" (MongoVal.doc [])) :=
  C5_find_rejects_order_limit "User" PyWhere.none (Option.some "age") Option.none (by decide)

theorem dropWhile_append_ne {p : Char → Bool} {l1 l2 : List Char}
    (h1 : l1 ≠ []) (hall : ∀ x ∈ l1, p x = false) :
    (l1 ++ l2).dropWhile p = l1 ++ l2 := by
  cases l1 with
  | nil => exact absurd rfl h1
  | cons a as =>
    have ha : p a = false := hall a (List.mem_cons_self a as)
    simp [List.dropWhile_cons, ha]

theorem listStartsWith_append (pre rest : List Char) :
    listStartsWith (pre ++ rest) pre = true := by
  induction pre with
  | nil => cases rest <;> rfl
  | cons a as ih => simp [listStartsWith, ih]

theorem matchesIdent_chars {i : String} (h : SQLAlchemyAdapter.matchesIdent i = true) :
    ∃ c cs, i.data = c :: cs ∧ isIdentStart c = true ∧ (∀ x ∈ cs, isIdentChar x = true) := by
  unfold SQLAlchemyAdapter.matchesIdent at h
  cases hd : i.data with
  | nil => rw [hd] at h; cases h
  | cons c cs =>
    rw [hd] at h
    simp only [Bool.and_eq_true, List.all_eq_true] at h
    exact ⟨c, cs, rfl, h.1, h.2⟩

/-- The relational UQL translator rejects a DELETE statement with no WHERE
clause, for every valid entity identifier. -/
theorem convert_uql_delete_no_where (entity : String)
    (hent : SQLAlchemyAdapter.matchesIdent entity = true) :
    SQLAlchemyAdapter.convert_uql_delete ("DELETE " ++ entity)
      = Except.error (PyError.queryError "DELETE UQL requires WHERE") := by
  obtain ⟨c, cs, hd, hc, hcs⟩ := matchesIdent_chars hent
  have hall : ∀ x ∈ entity.data, isIdentChar x = true := matchesIdent_all_identChar hent
  have hnospace : ∀ x ∈ entity.data, isPySpace x = false :=
    fun x hx => identChar_not_space x (hall x hx)
  have hne : entity.data ≠ [] := by rw [hd]; exact List.cons_ne_nil c cs
  have hcfirst : isPySpace c = false :=
    hnospace c (by rw [hd]; exact List.mem_cons_self c cs)
  have hstrip : pyStripWs ("DELETE " ++ entity) = "DELETE " ++ entity := by
    have hdata : ("DELETE " ++ entity).data
        = 'D' :: ('E' :: 'L' :: 'E' :: 'T' :: 'E' :: ' ' :: entity.data) := rfl
    unfold pyStripWs stripEndsBy
    rw [hdata, List.dropWhile_cons]
    simp only [show isPySpace 'D' = false from by decide, Bool.false_eq_true, if_false]
    have hrev : ('D' :: 'E' :: 'L' :: 'E' :: 'T' :: 'E' :: ' ' :: entity.data).reverse
        = entity.data.reverse ++ [' ', 'E', 'T', 'E', 'L', 'E', 'D'] := by
      rw [show ('D' :: 'E' :: 'L' :: 'E' :: 'T' :: 'E' :: ' ' :: entity.data)
          = ['D', 'E', 'L', 'E', 'T', 'E', ' '] ++ entity.data from rfl, List.reverse_append]
      rfl
    rw [hrev]
    rw [dropWhile_append_ne (by simp [hne])
      (fun x hx => hnospace x (List.mem_reverse.mp hx))]
    rw [List.reverse_append, List.reverse_reverse]
    rfl
  have hsp : isPySpace ' ' = true := by decide
  have htws : cs.takeWhile isIdentChar = cs := takeWhile_all_eq_self hcs
  have hdws : cs.dropWhile isIdentChar = [] := dropWhile_all_eq_nil hcs
  have hmatch : SQLAlchemyAdapter.matchSqlDelete ("DELETE " ++ entity)
      = Option.some (entity, Option.none) := by
    unfold SQLAlchemyAdapter.matchSqlDelete
    have hci : matchCI "DELETE".data ("DELETE " ++ entity).data
        = Option.some (' ' :: entity.data) := rfl
    rw [hci, hd]
    simp only [List.takeWhile_cons, List.dropWhile_cons, hsp, hcfirst, hc,
      Bool.false_eq_true, Bool.true_eq_false, if_true, if_false,
      List.isEmpty_cons, htws, hdws]
    rw [← hd]
  have hup : pyStartsWith (pyUpper ("DELETE " ++ entity)) "DELETE " = true := by
    show listStartsWith (List.map Char.toUpper ("DELETE " ++ entity).data)
      ("DELETE " : String).data = true
    rw [show ("DELETE " ++ entity).data = ("DELETE " : String).data ++ entity.data from rfl,
      List.map_append]
    rw [show List.map Char.toUpper ("DELETE " : String).data = ("DELETE " : String).data from
      by decide]
    exact listStartsWith_append _ _
  have hv : SQLAlchemyAdapter.validate_identifier entity = Except.ok entity := by
    unfold SQLAlchemyAdapter.validate_identifier
    simp [hent]
  unfold SQLAlchemyAdapter.convert_uql_delete
  rw [hstrip]
  dsimp only
  rw [hup]
  simp only [if_true]
  rw [hmatch]
  dsimp only
  rw [hv]

/-- C1 (counterexample): translating a DELETE UQL statement with no WHERE
clause does not fail for the document and graph backends, contradicting the
claim: the document translator returns a delete operation with the empty
(match-all) filter, and the graph translator returns an unconditional
`MATCH ... DELETE n;` statement. -/
theorem C1_counterexample :
    NoSQLAdapter.convert_uql "DELETE users"
      = Except.ok (NoSQLNative.deleteOp "users" (MongoVal.doc []))
    ∧ GraphAdapter.convert_uql "DELETE User"
      = Except.ok "MATCH (n:User)  DELETE n;" :=
  ⟨rfl, rfl⟩

/-- C1 (amended): the adapter `delete(entity, where)` methods reject an
absent condition, an empty equality mapping, and (for the graph and
document adapters) an empty condition string, in every backend family; and
the relational UQL translator rejects a DELETE statement with no WHERE
clause.  The graph and document UQL translators, however, accept such a
statement and produce an unconditional (match-all) delete — see the
counterexample. -/
theorem C1_delete_requires_condition (entity : String)
    (hent : SQLAlchemyAdapter.matchesIdent entity = true) :
    SQLAlchemyAdapter.delete entity PyWhere.none
      = Except.error (PyError.queryError "delete() requires a non-empty where condition")
    ∧ SQLAlchemyAdapter.delete entity (PyWhere.map [])
      = Except.error (PyError.queryError "delete() requires a non-empty where condition")
    ∧ NoSQLAdapter.delete entity PyWhere.none
      = Except.error (PyError.queryError "where must be mapping or string")
    ∧ NoSQLAdapter.delete entity (PyWhere.map [])
      = Except.error (PyError.queryError "delete requires a non-empty where condition")
    ∧ NoSQLAdapter.delete entity (PyWhere.str "")
      = Except.error (PyError.queryError "delete requires a non-empty where condition")
    ∧ GraphAdapter.delete entity PyWhere.none
      = Except.error (PyError.queryError "delete requires a non-empty where condition")
    ∧ GraphAdapter.delete entity (PyWhere.map [])
      = Except.error (PyError.queryError "delete requires a non-empty where condition")
    ∧ GraphAdapter.delete entity (PyWhere.str "")
      = Except.error (PyError.queryError "delete requires a non-empty where condition")
    ∧ SQLAlchemyAdapter.convert_uql_delete ("DELETE " ++ entity)
      = Except.error (PyError.queryError "DELETE UQL requires WHERE") := by
  have hv : SQLAlchemyAdapter.validate_identifier entity = Except.ok entity := by
    unfold SQLAlchemyAdapter.validate_identifier
    simp [hent]
  refine ⟨?_, ?_, rfl, rfl, rfl, rfl, rfl, rfl, convert_uql_delete_no_where entity hent⟩
  · unfold SQLAlchemyAdapter.delete
    rw [hv]
    rfl
  · unfold SQLAlchemyAdapter.delete
    rw [hv]
    rfl

/-- C1 witness: the amended theorem applied to the entity `Orders`. -/
theorem C1_delete_requires_condition_witness :
    SQLAlchemyAdapter.delete "Orders" PyWhere.none
      = Except.error (PyError.queryError "delete() requires a non-empty where condition")
    ∧ SQLAlchemyAdapter.delete "Orders" (PyWhere.map [])
      = Except.error (PyError.queryError "delete() requires a non-empty where condition")
    ∧ NoSQLAdapter.delete "Orders" PyWhere.none
      = Except.error (PyError.queryError "where must be mapping or string")
    ∧ NoSQLAdapter.delete "Orders" (PyWhere.map [])
      = Except.error (PyError.queryError "delete requires a non-empty where condition")
    ∧ NoSQLAdapter.delete "Orders" (PyWhere.str "")
      = Except.error (PyError.queryError "delete requires a non-empty where condition")
    ∧ GraphAdapter.delete "Orders" PyWhere.none
      = Except.error (PyError.queryError "delete requires a non-empty where condition")
    ∧ GraphAdapter.delete "Orders" (PyWhere.map [])
      = Except.error (PyError.queryError "delete requires a non-empty where condition")
    ∧ GraphAdapter.delete "Orders" (PyWhere.str "")
      = Except.error (PyError.queryError "delete requires a non-empty where condition")
    ∧ SQLAlchemyAdapter.convert_uql_delete ("DELETE " ++ "Orders")
      = Except.error (PyError.queryError "DELETE UQL requires WHERE") :=
  C1_delete_requires_condition "Orders" (by decide)
